import Mathlib

/-!
Shallow embedding of the transaction core of the Over-knight/Lujay-assesment
marketplace backend (Go).  The embedded code comes from

  * internal/models (transaction model file): constants, `Transaction`,
    `PaymentDetails`, the request structs and their `Validate` methods;
  * internal/service/transaction_service.go: `CreateTransaction`,
    `calculateFinancingDetails`, `pow`, `UpdateTransaction`,
    `CompleteTransaction`, `CancelTransaction`;
  * internal/handlers/transaction_handler.go: the error-string → HTTP-status
    mapping of each endpoint and the handler-level request validation that
    runs before the service is called.

Modelling conventions:
  * MongoDB ObjectIDs are abstract tokens, modelled as `Nat`.  The hex-string
    parsing and format checks of the Go code (`primitive.ObjectIDFromHex`,
    `primitive.IsValidObjectID`) are plumbing on the string form of the same
    token and are dropped: requests carry already-parsed ids.
  * Go `float64` money/rate fields are modelled as `ℚ` (exact arithmetic;
    the numeric claims under scrutiny are exact in binary floating point as
    well).  Go `time.Time` values are abstract instants modelled as `Nat`,
    passed in as a `now` parameter.
  * The two Mongo collections are a `DB` record of two optional-valued maps.
    A Mongo write is modelled by a fallibility flag where a claim depends on
    write failure: a failed write applies nothing.  `CompleteTransaction`
    in the Go code obtains a session (`StartSession` + `mongo.WithSession`)
    but never starts a MongoDB multi-document transaction (no
    `StartTransaction` / `CommitTransaction` / `WithTransaction`), so its two
    updates execute as independent, unrolled-back writes; the embedding keeps
    that behaviour: if the second (vehicle) write fails, the first
    (transaction) write remains applied.
  * Go functions returning `(T, error)` become `Except String T`; the store
    state is threaded explicitly, also on the error path.
-/

/-- Transaction status constants (transaction model file). -/
def TransactionStatusPending : String := "pending"

/-- Status constant "completed". -/
def TransactionStatusCompleted : String := "completed"

/-- Status constant "cancelled". -/
def TransactionStatusCancelled : String := "cancelled"

/-- Status constant "failed". -/
def TransactionStatusFailed : String := "failed"

/-- Transaction type constant "sale". -/
def TransactionTypeSale : String := "sale"

/-- Transaction type constant "purchase". -/
def TransactionTypePurchase : String := "purchase"

/-- Payment method constant "cash". -/
def PaymentMethodCash : String := "cash"

/-- Payment method constant "bank_transfer". -/
def PaymentMethodBankTransfer : String := "bank_transfer"

/-- Payment method constant "card". -/
def PaymentMethodCard : String := "card"

/-- Payment method constant "financing". -/
def PaymentMethodFinancing : String := "financing"

/-- Vehicle status constant "active". -/
def VehicleStatusActive : String := "active"

/-- Vehicle status constant "sold". -/
def VehicleStatusSold : String := "sold"

/-- Vehicle status constant "archived". -/
def VehicleStatusArchived : String := "archived"

/-- IsValidTransactionStatus from the transaction model file: membership in
the list of the four declared status constants. -/
def IsValidTransactionStatus (status : String) : Bool :=
  [TransactionStatusPending, TransactionStatusCompleted,
   TransactionStatusCancelled, TransactionStatusFailed].contains status

/-- IsValidPaymentMethod from the transaction model file. -/
def IsValidPaymentMethod (method : String) : Bool :=
  [PaymentMethodCash, PaymentMethodBankTransfer,
   PaymentMethodCard, PaymentMethodFinancing].contains method

/-- PaymentDetails sub-record of a transaction (transaction model file).
Timestamps are `Option Nat` (Go `*time.Time`), money and rates are `ℚ`
(Go `float64`), `financingTerms` is `Int` (Go `int`). -/
structure PaymentDetails where
  transactionReference : String
  paidAt : Option Nat
  downPayment : ℚ
  financedAmount : ℚ
  monthlyPayment : ℚ
  financingTerms : Int
  interestRate : ℚ
  bankName : String
  accountNumber : String
  cardLast4 : String
  cardBrand : String
deriving DecidableEq, Repr

/-- The Transaction entity (transaction model file).  ObjectIDs are `Nat`. -/
structure Transaction where
  id : Nat
  vehicleId : Nat
  sellerId : Nat
  buyerId : Nat
  type : String
  status : String
  amount : ℚ
  currency : String
  paymentMethod : String
  paymentDetails : PaymentDetails
  inspectionId : Option Nat
  notes : String
  completedAt : Option Nat
  cancelledAt : Option Nat
  createdAt : Nat
  updatedAt : Nat
deriving DecidableEq, Repr

/-- The Vehicle entity (vehicle model file), restricted to the fields the
transaction engine reads or writes (`ownerId`, `status`, `updatedAt`); the
listing fields (make, model, price, …) are never touched by it. -/
structure Vehicle where
  ownerId : Nat
  status : String
  updatedAt : Nat
deriving DecidableEq, Repr

/-- CreateTransactionRequest (transaction model file); ids already parsed. -/
structure CreateTransactionRequest where
  vehicleId : Nat
  buyerId : Nat
  amount : ℚ
  currency : String
  paymentMethod : String
  inspectionId : Option Nat
  notes : String
  paymentDetails : PaymentDetails
deriving DecidableEq, Repr

/-- UpdateTransactionRequest (transaction model file). -/
structure UpdateTransactionRequest where
  status : String
  paymentDetails : Option PaymentDetails
  notes : String
deriving DecidableEq, Repr

/-- CompleteTransactionRequest (transaction model file). -/
structure CompleteTransactionRequest where
  transactionReference : String
  notes : String
deriving DecidableEq, Repr

/-- validatePaymentDetails from the transaction model file: the Go `switch`
on the payment method, branch bodies verbatim.  `none` means valid. -/
def CreateTransactionRequest.validatePaymentDetails
    (r : CreateTransactionRequest) : Option String :=
  if r.paymentMethod = PaymentMethodFinancing then
    if r.paymentDetails.downPayment ≤ 0 then
      some "downPayment is required for financing"
    else if r.paymentDetails.downPayment ≥ r.amount then
      some "downPayment must be less than total amount"
    else if r.paymentDetails.financingTerms ≤ 0 then
      some "financingTerms is required for financing"
    else if r.paymentDetails.interestRate < 0 then
      some "interestRate cannot be negative"
    else none
  else if r.paymentMethod = PaymentMethodBankTransfer then
    if r.paymentDetails.bankName = "" then
      some "bankName is required for bank transfer"
    else none
  else none

/-- Validate on CreateTransactionRequest.  The id-format checks of the Go
code act on the hex string form and are dropped (ids are modelled as parsed
tokens); the remaining checks appear in the Go order. -/
def CreateTransactionRequest.Validate
    (r : CreateTransactionRequest) : Option String :=
  if r.amount ≤ 0 then some "amount must be greater than 0"
  else if r.currency = "" then some "currency is required"
  else if r.paymentMethod = "" then some "paymentMethod is required"
  else if IsValidPaymentMethod r.paymentMethod = false then
    some "invalid paymentMethod value"
  else r.validatePaymentDetails

/-- Validate on UpdateTransactionRequest: a non-empty status must be one of
the four declared constants (the Go code rejects nothing else). -/
def UpdateTransactionRequest.Validate
    (r : UpdateTransactionRequest) : Option String :=
  if r.status ≠ "" ∧ IsValidTransactionStatus r.status = false then
    some "invalid status value"
  else none

/-- Validate on CompleteTransactionRequest: the reference is required. -/
def CompleteTransactionRequest.Validate
    (r : CompleteTransactionRequest) : Option String :=
  if r.transactionReference = "" then
    some "transactionReference is required"
  else none

/-- The two Mongo collections used by the transaction service, as optional-valued
maps from ObjectID. -/
structure DB where
  transactions : Nat → Option Transaction
  vehicles : Nat → Option Vehicle

/-- Point update of the transactions collection (a FindOneAndUpdate or an
InsertOne at a known id). -/
def DB.setTxn (db : DB) (i : Nat) (t : Transaction) : DB :=
  { db with transactions := fun j => if j = i then some t else db.transactions j }

/-- pow from transaction_service.go: a loop multiplying `x` together
`int(n)` times.  The Go call sites pass `n = float64(terms)` for an `int`
value of `terms`, so the truncation `int(n)` is `terms` itself when
`terms ≥ 0` and the loop body never runs when `terms < 0` (result 1);
`Int.toNat` has exactly that behaviour. -/
def pow (x : ℚ) (n : Int) : ℚ := x ^ n.toNat

/-- calculateFinancingDetails from transaction_service.go: sets
`financedAmount = amount - downPayment`, then the monthly payment by the
amortizing-loan formula when the monthly rate (`interestRate / 100 / 12`)
is positive and by straight division `principal / months` otherwise. -/
def calculateFinancingDetails (txn : Transaction) : Transaction :=
  let financedAmount := txn.amount - txn.paymentDetails.downPayment
  let principal := financedAmount
  let monthlyInterestRate := txn.paymentDetails.interestRate / 100 / 12
  let months : ℚ := (txn.paymentDetails.financingTerms : ℚ)
  let monthlyPayment :=
    if monthlyInterestRate > 0 then
      principal * (monthlyInterestRate *
          pow (1 + monthlyInterestRate) txn.paymentDetails.financingTerms) /
        (pow (1 + monthlyInterestRate) txn.paymentDetails.financingTerms - 1)
    else
      principal / months
  { txn with paymentDetails :=
      { txn.paymentDetails with
          financedAmount := financedAmount
          monthlyPayment := monthlyPayment } }

/-- The transaction record built by CreateTransaction before insertion,
including the financing computation for the financing payment method. -/
def builtTransaction (req : CreateTransactionRequest)
    (sellerID newId now : Nat) : Transaction :=
  let txn : Transaction :=
    { id := newId
      vehicleId := req.vehicleId
      sellerId := sellerID
      buyerId := req.buyerId
      type := TransactionTypeSale
      status := TransactionStatusPending
      amount := req.amount
      currency := req.currency
      paymentMethod := req.paymentMethod
      paymentDetails := req.paymentDetails
      inspectionId := req.inspectionId
      notes := req.notes
      completedAt := none
      cancelledAt := none
      createdAt := now
      updatedAt := now }
  if req.paymentMethod = PaymentMethodFinancing then
    calculateFinancingDetails txn
  else txn

/-- CreateTransaction from transaction_service.go: vehicle lookup, ownership
check, availability check, self-dealing check, then build and insert the
pending transaction.  `newId` is the id assigned by InsertOne. -/
def CreateTransaction (db : DB) (req : CreateTransactionRequest)
    (sellerID newId now : Nat) : Except String Transaction × DB :=
  match db.vehicles req.vehicleId with
  | none => (.error "vehicle not found", db)
  | some vehicle =>
    if vehicle.ownerId ≠ sellerID then
      (.error "you are not the owner of this vehicle", db)
    else if vehicle.status ≠ VehicleStatusActive then
      (.error "vehicle is not available for sale", db)
    else if req.buyerId = sellerID then
      (.error "cannot create transaction with yourself", db)
    else
      let txn := builtTransaction req sellerID newId now
      (.ok txn, db.setTxn newId txn)

/-- UpdateTransaction from transaction_service.go: existence check,
party check (seller or buyer), then a single FindOneAndUpdate that merges
status / paymentDetails / notes when provided.  The vehicle collection is
never read or written. -/
def UpdateTransaction (db : DB) (id : Nat) (req : UpdateTransactionRequest)
    (userID now : Nat) : Except String Transaction × DB :=
  match db.transactions id with
  | none => (.error "transaction not found", db)
  | some existingTxn =>
    if existingTxn.sellerId ≠ userID ∧ existingTxn.buyerId ≠ userID then
      (.error "you are not authorized to update this transaction", db)
    else
      let txn : Transaction :=
        { existingTxn with
            updatedAt := now
            status := if req.status ≠ "" then req.status else existingTxn.status
            paymentDetails := req.paymentDetails.getD existingTxn.paymentDetails
            notes := if req.notes ≠ "" then req.notes else existingTxn.notes }
      (.ok txn, db.setTxn id txn)

/-- CompleteTransaction from transaction_service.go.  Precondition checks
(existence, caller is seller, status pending), then two writes issued inside
`mongo.WithSession`: the transaction FindOneAndUpdate and the vehicle
UpdateOne.  No MongoDB transaction is ever started on the session, so the
writes are independent: `txnWriteOk`/`vehWriteOk` say whether each write
succeeds, a failed write applies nothing, and a failure of the second write
does not roll the first back (the Go code has no abort/rollback path).
The vehicle UpdateOne filters on `_id = txn.vehicleId`; matching zero
documents is not an error, which the `Option.map` reproduces. -/
def CompleteTransaction (db : DB) (id : Nat)
    (req : CompleteTransactionRequest) (userID now : Nat)
    (txnWriteOk vehWriteOk : Bool) : Except String Transaction × DB :=
  match db.transactions id with
  | none => (.error "transaction not found", db)
  | some transaction =>
    if transaction.sellerId ≠ userID then
      (.error "only the seller can complete this transaction", db)
    else if transaction.status ≠ TransactionStatusPending then
      (.error "transaction is not pending", db)
    else if txnWriteOk = false then
      (.error "transaction write failed", db)
    else
      let txn : Transaction :=
        { transaction with
            status := TransactionStatusCompleted
            completedAt := some now
            updatedAt := now
            paymentDetails :=
              { transaction.paymentDetails with
                  transactionReference := req.transactionReference
                  paidAt := some now }
            notes := if req.notes ≠ "" then req.notes else transaction.notes }
      let db1 := db.setTxn id txn
      if vehWriteOk = false then
        (.error "vehicle write failed", db1)
      else
        let db2 : DB :=
          { db1 with vehicles := fun j =>
              if j = txn.vehicleId then
                (db1.vehicles txn.vehicleId).map fun v =>
                  { v with ownerId := txn.buyerId
                           status := VehicleStatusSold
                           updatedAt := now }
              else db1.vehicles j }
        (.ok txn, db2)

/-- CancelTransaction from transaction_service.go: existence check, party
check (seller or buyer), pending check, then one FindOneAndUpdate on the
transactions collection only. -/
def CancelTransaction (db : DB) (id : Nat) (notes : String)
    (userID now : Nat) : Except String Transaction × DB :=
  match db.transactions id with
  | none => (.error "transaction not found", db)
  | some transaction =>
    if transaction.sellerId ≠ userID ∧ transaction.buyerId ≠ userID then
      (.error "you are not authorized to cancel this transaction", db)
    else if transaction.status ≠ TransactionStatusPending then
      (.error "only pending transactions can be cancelled", db)
    else
      let txn : Transaction :=
        { transaction with
            status := TransactionStatusCancelled
            cancelledAt := some now
            updatedAt := now
            notes := if notes ≠ "" then notes else transaction.notes }
      (.ok txn, db.setTxn id txn)

/-- Outcome of an HTTP endpoint call: the status code with the JSON payload
(the transaction on success, the error string on failure). -/
inductive HandlerResult where
  | success (code : Nat) (txn : Transaction)
  | failure (code : Nat) (msg : String)
deriving DecidableEq, Repr

/-- Error-string → HTTP-status mapping of the CreateTransaction handler
(transaction_handler.go).  Note that "vehicle not found" shares the
403 Forbidden branch with the ownership error. -/
def createTransactionHttpStatus (e : String) : Nat :=
  if e = "vehicle not found" ∨ e = "you are not the owner of this vehicle" then
    403
  else if e = "vehicle is not available for sale" ∨
      e = "cannot create transaction with yourself" then
    400
  else 500

/-- Error mapping of the UpdateTransaction handler. -/
def updateTransactionHttpStatus (e : String) : Nat :=
  if e = "transaction not found" then 404
  else if e = "you are not authorized to update this transaction" then 403
  else 500

/-- Error mapping of the CompleteTransaction handler. -/
def completeTransactionHttpStatus (e : String) : Nat :=
  if e = "transaction not found" then 404
  else if e = "only the seller can complete this transaction" then 403
  else if e = "transaction is not pending" then 400
  else 500

/-- Error mapping of the CancelTransaction handler. -/
def cancelTransactionHttpStatus (e : String) : Nat :=
  if e = "transaction not found" then 404
  else if e = "you are not authorized to cancel this transaction" then 403
  else if e = "only pending transactions can be cancelled" then 400
  else 500

/-- POST /transactions: the handler runs `req.Validate()` (returning 400 on
failure) before calling the service, then maps service errors to statuses
and answers 201 on success. -/
def createEndpoint (db : DB) (req : CreateTransactionRequest)
    (sellerID newId now : Nat) : HandlerResult × DB :=
  match req.Validate with
  | some e => (.failure 400 e, db)
  | none =>
    match CreateTransaction db req sellerID newId now with
    | (.error e, db1) => (.failure (createTransactionHttpStatus e) e, db1)
    | (.ok txn, db1) => (.success 201 txn, db1)

/-- PUT /transactions/:id with request validation and error mapping. -/
def updateEndpoint (db : DB) (id : Nat) (req : UpdateTransactionRequest)
    (userID now : Nat) : HandlerResult × DB :=
  match req.Validate with
  | some e => (.failure 400 e, db)
  | none =>
    match UpdateTransaction db id req userID now with
    | (.error e, db1) => (.failure (updateTransactionHttpStatus e) e, db1)
    | (.ok txn, db1) => (.success 200 txn, db1)

/-- POST /transactions/:id/complete with request validation and error
mapping. -/
def completeEndpoint (db : DB) (id : Nat)
    (req : CompleteTransactionRequest) (userID now : Nat)
    (txnWriteOk vehWriteOk : Bool) : HandlerResult × DB :=
  match req.Validate with
  | some e => (.failure 400 e, db)
  | none =>
    match CompleteTransaction db id req userID now txnWriteOk vehWriteOk with
    | (.error e, db1) => (.failure (completeTransactionHttpStatus e) e, db1)
    | (.ok txn, db1) => (.success 200 txn, db1)

/-- POST /transactions/:id/cancel (the cancel body has no validation beyond
JSON binding) with error mapping. -/
def cancelEndpoint (db : DB) (id : Nat) (notes : String)
    (userID now : Nat) : HandlerResult × DB :=
  match CancelTransaction db id notes userID now with
  | (.error e, db1) => (.failure (cancelTransactionHttpStatus e) e, db1)
  | (.ok txn, db1) => (.success 200 txn, db1)

/-- One API call against the transaction endpoints, with its parameters
(including which of Complete's two writes succeed). -/
inductive Op where
  | createOp (req : CreateTransactionRequest) (sellerID newId now : Nat)
  | updateOp (id : Nat) (req : UpdateTransactionRequest) (userID now : Nat)
  | completeOp (id : Nat) (req : CompleteTransactionRequest)
      (userID now : Nat) (txnWriteOk vehWriteOk : Bool)
  | cancelOp (id : Nat) (notes : String) (userID now : Nat)

/-- The store state after one endpoint call. -/
def applyOp (db : DB) : Op → DB
  | .createOp req s nid now => (createEndpoint db req s nid now).2
  | .updateOp id req u now => (updateEndpoint db id req u now).2
  | .completeOp id req u now t v => (completeEndpoint db id req u now t v).2
  | .cancelOp id notes u now => (cancelEndpoint db id notes u now).2

/-- The store state after a sequence of endpoint calls. -/
def applyOps (db : DB) (ops : List Op) : DB := ops.foldl applyOp db

/-- Every stored transaction carries one of the four declared statuses. -/
def statusOk (db : DB) : Prop :=
  ∀ i txn, db.transactions i = some txn →
    IsValidTransactionStatus txn.status = true

/-- No stored transaction carries the status "failed". -/
def noFailed (db : DB) : Prop :=
  ∀ i txn, db.transactions i = some txn →
    txn.status ≠ TransactionStatusFailed

/-- An operation that does not explicitly ask Update to store the status
"failed" (every non-Update operation qualifies). -/
def Op.avoidsFailed : Op → Prop
  | .updateOp _ req _ _ => req.status ≠ TransactionStatusFailed
  | _ => True

/-- Empty payment-details sub-record (Go zero value). -/
def pd0 : PaymentDetails :=
  { transactionReference := ""
    paidAt := none
    downPayment := 0
    financedAmount := 0
    monthlyPayment := 0
    financingTerms := 0
    interestRate := 0
    bankName := ""
    accountNumber := ""
    cardLast4 := ""
    cardBrand := "" }

/-- Test fixture: a pending cash transaction, id 10, seller 1, buyer 2,
vehicle 5, amount 25000 USD. -/
def t10 : Transaction :=
  { id := 10
    vehicleId := 5
    sellerId := 1
    buyerId := 2
    type := TransactionTypeSale
    status := TransactionStatusPending
    amount := 25000
    currency := "USD"
    paymentMethod := PaymentMethodCash
    paymentDetails := pd0
    inspectionId := none
    notes := ""
    completedAt := none
    cancelledAt := none
    createdAt := 0
    updatedAt := 0 }

/-- Test fixture: an already-completed transaction, id 11, same parties. -/
def t11 : Transaction := { t10 with id := 11, status := TransactionStatusCompleted }

/-- Test fixture: vehicle 5, owned by user 1, active. -/
def v5 : Vehicle := { ownerId := 1, status := VehicleStatusActive, updatedAt := 0 }

/-- Test fixture store: transaction `t10` and vehicle `v5`. -/
def db0 : DB :=
  { transactions := fun i => if i = 10 then some t10 else none
    vehicles := fun i => if i = 5 then some v5 else none }

/-- Test fixture store: pending `t10` and completed `t11`, vehicle `v5`. -/
def db1c : DB :=
  { transactions := fun i =>
      if i = 10 then some t10 else if i = 11 then some t11 else none
    vehicles := fun i => if i = 5 then some v5 else none }

/-- Test fixture store: transaction `t10` present but its vehicle absent. -/
def dbNoVeh : DB :=
  { transactions := fun i => if i = 10 then some t10 else none
    vehicles := fun _ => none }

/-- Test fixture: financing request over amount 30000 with down payment
10000, 60-month term, 3.5 percent rate, against an absent vehicle 99. -/
def reqFin30000 : CreateTransactionRequest :=
  { vehicleId := 99
    buyerId := 2
    amount := 30000
    currency := "USD"
    paymentMethod := PaymentMethodFinancing
    inspectionId := none
    notes := ""
    paymentDetails :=
      { pd0 with downPayment := 10000, financingTerms := 60, interestRate := 7/2 } }

/-- Test fixture: financing request with a zero down payment (invalid),
against an absent vehicle 99. -/
def reqFinBad : CreateTransactionRequest :=
  { reqFin30000 with
      paymentDetails := { pd0 with downPayment := 0, financingTerms := 60 } }

/-- Test fixture: well-formed cash request against an absent vehicle 99. -/
def reqCashV99 : CreateTransactionRequest :=
  { vehicleId := 99
    buyerId := 2
    amount := 25000
    currency := "USD"
    paymentMethod := PaymentMethodCash
    inspectionId := none
    notes := ""
    paymentDetails := pd0 }

/-- Test fixture: financing transaction for the 30000 / 10000 / 60 / 3.5
example of the spec. -/
def txn30000 : Transaction :=
  { t10 with
      amount := 30000
      paymentMethod := PaymentMethodFinancing
      paymentDetails :=
        { pd0 with downPayment := 10000, financingTerms := 60, interestRate := 7/2 } }

/-- Test fixture: zero-interest financing transaction, principal 12000 over
12 months. -/
def txn12000 : Transaction :=
  { t10 with
      amount := 12000
      paymentMethod := PaymentMethodFinancing
      paymentDetails :=
        { pd0 with downPayment := 0, financingTerms := 12, interestRate := 0 } }

/-- Helper: calculateFinancingDetails only rewrites the payment-details
sub-record; the status is untouched. -/
theorem calculateFinancingDetails_status (txn : Transaction) :
    (calculateFinancingDetails txn).status = txn.status := rfl

/-- Helper: a point update of the transactions collection leaves the
vehicles collection untouched. -/
theorem setTxn_vehicles (db : DB) (i : Nat) (t : Transaction) :
    (db.setTxn i t).vehicles = db.vehicles := rfl

/-- Helper: contents of a point-updated transactions collection. -/
theorem setTxn_transactions_eq_some {db : DB} {i j : Nat} {t u : Transaction}
    (h : (db.setTxn i t).transactions j = some u) :
    u = t ∨ db.transactions j = some u := by
  unfold DB.setTxn at h
  by_cases hji : j = i
  · simp [hji] at h
    exact Or.inl h.symm
  · simp [hji] at h
    exact Or.inr h

/-- C5: for a Create request with payment method financing, the
payment-details validation rejects exactly when the down payment is ≤ 0, or
≥ the amount, or the term is ≤ 0, or the interest rate is < 0; for payment
method bank transfer it rejects exactly when the bank name is absent. -/
theorem c5_payment_details_validation (r : CreateTransactionRequest) :
    (r.paymentMethod = PaymentMethodFinancing →
      (r.validatePaymentDetails ≠ none ↔
        (r.paymentDetails.downPayment ≤ 0 ∨
         r.paymentDetails.downPayment ≥ r.amount ∨
         r.paymentDetails.financingTerms ≤ 0 ∨
         r.paymentDetails.interestRate < 0))) ∧
    (r.paymentMethod = PaymentMethodBankTransfer →
      (r.validatePaymentDetails ≠ none ↔ r.paymentDetails.bankName = "")) := by
  unfold CreateTransactionRequest.validatePaymentDetails
  constructor
  · intro h
    rw [h]
    simp only [if_pos rfl]
    split_ifs with h1 h2 h3 h4 <;> simp_all
  · intro h
    rw [h]
    have hne : PaymentMethodBankTransfer ≠ PaymentMethodFinancing := by decide
    rw [if_neg hne, if_pos rfl]
    split_ifs with h1 <;> simp_all

/-- Witness for C5 at a concrete financing request with a zero down
payment. -/
theorem c5_payment_details_validation_witness :
    reqFinBad.validatePaymentDetails ≠ none :=
  ((c5_payment_details_validation reqFinBad).1 rfl).mpr
    (Or.inl (by norm_num [reqFinBad, reqFin30000, pd0]))

/-- C6: calculateFinancingDetails is a pure function that sets
financedAmount to amount - downPayment; the monthly payment is
P * [r(1+r)^n] / [(1+r)^n - 1] when the monthly rate r = rate/100/12 is
positive, and P / n when the rate is 0, the divisor n being nonzero for any
positive term (so the rate-0 branch performs no division by zero). -/
theorem c6_financing_calculator (txn : Transaction) :
    ((calculateFinancingDetails txn).paymentDetails.financedAmount =
        txn.amount - txn.paymentDetails.downPayment) ∧
    (0 < txn.paymentDetails.interestRate →
      (calculateFinancingDetails txn).paymentDetails.monthlyPayment =
        (txn.amount - txn.paymentDetails.downPayment) *
            (txn.paymentDetails.interestRate / 100 / 12 *
              pow (1 + txn.paymentDetails.interestRate / 100 / 12)
                txn.paymentDetails.financingTerms) /
          (pow (1 + txn.paymentDetails.interestRate / 100 / 12)
              txn.paymentDetails.financingTerms - 1)) ∧
    (txn.paymentDetails.interestRate = 0 →
      (calculateFinancingDetails txn).paymentDetails.monthlyPayment =
        (txn.amount - txn.paymentDetails.downPayment) /
          (txn.paymentDetails.financingTerms : ℚ)) ∧
    (0 < txn.paymentDetails.financingTerms →
      ((txn.paymentDetails.financingTerms : ℚ)) ≠ 0) := by
  refine ⟨rfl, ?_, ?_, ?_⟩
  · intro hr
    have hpos : 0 < txn.paymentDetails.interestRate / 100 / 12 := by positivity
    unfold calculateFinancingDetails
    simp only [if_pos hpos]
  · intro hr
    have hnpos : ¬ (0 : ℚ) < txn.paymentDetails.interestRate / 100 / 12 := by
      rw [hr]; norm_num
    unfold calculateFinancingDetails
    rw [hr]
    norm_num
  · intro ht
    exact_mod_cast (Int.ne_of_gt ht)

/-- Witness for C6: the 30000 / 10000 / 60 / 3.5 example yields a financed
amount of 20000, and principal 12000 over 12 months at rate 0 yields a
monthly payment of 1000. -/
theorem c6_financing_calculator_witness :
    (calculateFinancingDetails txn30000).paymentDetails.financedAmount = 20000 ∧
    (calculateFinancingDetails txn12000).paymentDetails.monthlyPayment = 1000 := by
  constructor
  · rw [(c6_financing_calculator txn30000).1]
    norm_num [txn30000, t10, pd0]
  · rw [(c6_financing_calculator txn12000).2.2.1 rfl]
    norm_num [txn12000, t10, pd0]


/-- Helper: CancelTransaction never writes the vehicles collection, on any
path. -/
theorem cancel_vehicles_frame (db : DB) (id : Nat) (notes : String)
    (userID now : Nat) :
    (CancelTransaction db id notes userID now).2.vehicles = db.vehicles := by
  unfold CancelTransaction
  cases db.transactions id with
  | none => rfl
  | some transaction =>
    dsimp only
    split_ifs <;> rfl

/-- C7: whenever Cancel succeeds, the returned transaction is cancelled with
cancelledAt set to the call instant, and the vehicles collection is exactly
what it was before the call (owner and status of every vehicle keep their
prior values). -/
theorem c7_cancel_sets_status_leaves_vehicle (db : DB) (id : Nat)
    (notes : String) (userID now : Nat) (txn2 : Transaction)
    (h : (CancelTransaction db id notes userID now).1 = .ok txn2) :
    txn2.status = TransactionStatusCancelled ∧
    txn2.cancelledAt = some now ∧
    (CancelTransaction db id notes userID now).2.vehicles = db.vehicles := by
  unfold CancelTransaction at h
  cases hdb : db.transactions id with
  | none => rw [hdb] at h; simp at h
  | some transaction =>
    rw [hdb] at h
    dsimp only at h
    split_ifs at h with hauth hpend hnotes
    · dsimp only at h
      rw [Except.ok.injEq] at h
      rw [← h]
      exact ⟨rfl, rfl, cancel_vehicles_frame db id notes userID now⟩
    · dsimp only at h
      rw [Except.ok.injEq] at h
      rw [← h]
      exact ⟨rfl, rfl, cancel_vehicles_frame db id notes userID now⟩

/-- Witness for C7: cancelling the pending fixture transaction as its buyer
succeeds, marks it cancelled, and leaves the vehicles collection intact. -/
theorem c7_cancel_sets_status_leaves_vehicle_witness :
    ∃ txn2, (CancelTransaction db0 10 "changed my mind" 2 9).1 = .ok txn2 ∧
      txn2.status = TransactionStatusCancelled ∧
      txn2.cancelledAt = some 9 ∧
      (CancelTransaction db0 10 "changed my mind" 2 9).2.vehicles = db0.vehicles :=
  ⟨_, rfl, c7_cancel_sets_status_leaves_vehicle db0 10 "changed my mind" 2 9 _ rfl⟩

/-- C9: if the vehicle referenced by a pending transaction is absent from
the vehicle store, Complete called by the seller still succeeds and marks
the transaction completed, while the vehicle store is unchanged: the
UpdateOne matching zero documents is not treated as an error, so a
completed transaction can exist with no ownership transfer. -/
theorem c9_complete_succeeds_without_vehicle (db : DB) (id : Nat)
    (req : CompleteTransactionRequest) (userID now : Nat) (txn : Transaction)
    (h1 : db.transactions id = some txn)
    (h2 : txn.sellerId = userID)
    (h3 : txn.status = TransactionStatusPending)
    (h4 : db.vehicles txn.vehicleId = none) :
    (∃ txn2, (CompleteTransaction db id req userID now true true).1 = .ok txn2 ∧
        txn2.status = TransactionStatusCompleted) ∧
    (CompleteTransaction db id req userID now true true).2.vehicles =
      db.vehicles := by
  unfold CompleteTransaction
  rw [h1]
  dsimp only [DB.setTxn]
  rw [if_neg (show ¬ (txn.sellerId ≠ userID) by simp [h2]),
    if_neg (show ¬ (txn.status ≠ TransactionStatusPending) by simp [h3]),
    if_neg (show ¬ (true = false) by simp),
    if_neg (show ¬ (true = false) by simp)]
  constructor
  · exact ⟨_, rfl, rfl⟩
  · funext j
    dsimp only
    split_ifs with hj
    · rw [hj, h4]
      rfl
    · rfl

/-- Witness for C9 at the fixture store whose vehicle collection is
empty. -/
theorem c9_complete_succeeds_without_vehicle_witness :
    (∃ txn2,
        (CompleteTransaction dbNoVeh 10 { transactionReference := "TXN1", notes := "" }
            1 7 true true).1 = .ok txn2 ∧
        txn2.status = TransactionStatusCompleted) ∧
    (CompleteTransaction dbNoVeh 10 { transactionReference := "TXN1", notes := "" }
        1 7 true true).2.vehicles = dbNoVeh.vehicles :=
  c9_complete_succeeds_without_vehicle dbNoVeh 10
    { transactionReference := "TXN1", notes := "" } 1 7 t10 rfl rfl rfl rfl

/-- C3: on an existing pending transaction, Complete run by anyone but the
seller returns the forbidden error (mapped to 403) and leaves the store
untouched, while the seller's Complete succeeds; Cancel run by anyone who
is neither seller nor buyer returns the forbidden error (mapped to 403)
and leaves the store untouched, while seller or buyer can cancel. -/
theorem c3_only_seller_completes_parties_cancel (db : DB) (id : Nat)
    (req : CompleteTransactionRequest) (notes : String) (userID now : Nat)
    (txn : Transaction) (b1 b2 : Bool)
    (h1 : db.transactions id = some txn)
    (h3 : txn.status = TransactionStatusPending) :
    (userID ≠ txn.sellerId →
      CompleteTransaction db id req userID now b1 b2 =
        (.error "only the seller can complete this transaction", db)) ∧
    (userID = txn.sellerId →
      ∃ txn2, (CompleteTransaction db id req userID now true true).1 = .ok txn2) ∧
    (userID ≠ txn.sellerId → userID ≠ txn.buyerId →
      CancelTransaction db id notes userID now =
        (.error "you are not authorized to cancel this transaction", db)) ∧
    ((userID = txn.sellerId ∨ userID = txn.buyerId) →
      ∃ txn2, (CancelTransaction db id notes userID now).1 = .ok txn2) ∧
    completeTransactionHttpStatus "only the seller can complete this transaction" = 403 ∧
    cancelTransactionHttpStatus "you are not authorized to cancel this transaction" = 403 := by
  refine ⟨?_, ?_, ?_, ?_, by decide, by decide⟩
  · intro hu
    unfold CompleteTransaction
    rw [h1]
    dsimp only
    rw [if_pos (fun hh => hu hh.symm)]
  · intro hu
    unfold CompleteTransaction
    rw [h1]
    dsimp only [DB.setTxn]
    rw [if_neg (show ¬ (txn.sellerId ≠ userID) by simp [hu]),
      if_neg (show ¬ (txn.status ≠ TransactionStatusPending) by simp [h3]),
      if_neg (show ¬ (true = false) by simp),
      if_neg (show ¬ (true = false) by simp)]
    exact ⟨_, rfl⟩
  · intro hs hb
    unfold CancelTransaction
    rw [h1]
    dsimp only
    rw [if_pos ⟨fun hh => hs hh.symm, fun hh => hb hh.symm⟩]
  · intro hu
    unfold CancelTransaction
    rw [h1]
    dsimp only [DB.setTxn]
    have hauth : ¬ (txn.sellerId ≠ userID ∧ txn.buyerId ≠ userID) := by
      rcases hu with hu | hu <;> simp [hu]
    rw [if_neg hauth,
      if_neg (show ¬ (txn.status ≠ TransactionStatusPending) by simp [h3])]
    exact ⟨_, rfl⟩

/-- Witness for C3: outsider 99 can neither complete nor cancel the pending
fixture transaction (the store argument comes back unchanged), while seller
1 completes it and buyer 2 cancels it. -/
theorem c3_only_seller_completes_parties_cancel_witness :
    (CompleteTransaction db0 10 { transactionReference := "TXN1", notes := "" } 99 4 true true =
      (.error "only the seller can complete this transaction", db0)) ∧
    (CancelTransaction db0 10 "" 99 4 =
      (.error "you are not authorized to cancel this transaction", db0)) ∧
    (∃ txn2, (CompleteTransaction db0 10 { transactionReference := "TXN1", notes := "" } 1 4 true true).1 = .ok txn2) ∧
    (∃ txn2, (CancelTransaction db0 10 "" 2 4).1 = .ok txn2) := by
  refine ⟨?_, ?_, ?_, ?_⟩
  · exact (c3_only_seller_completes_parties_cancel db0 10
      { transactionReference := "TXN1", notes := "" } "" 99 4 t10 true true rfl rfl).1
      (by decide)
  · exact (c3_only_seller_completes_parties_cancel db0 10
      { transactionReference := "TXN1", notes := "" } "" 99 4 t10 true true rfl rfl).2.2.1
      (by decide) (by decide)
  · exact (c3_only_seller_completes_parties_cancel db0 10
      { transactionReference := "TXN1", notes := "" } "" 1 4 t10 true true rfl rfl).2.1
      rfl
  · exact (c3_only_seller_completes_parties_cancel db0 10
      { transactionReference := "TXN1", notes := "" } "" 2 4 t10 true true rfl rfl).2.2.2.1
      (Or.inr rfl)

/-- C1 (code evaluation at the failing input): the two writes of Complete
are not executed atomically.  The Go code opens a session but never starts
a MongoDB multi-document transaction, so when the transaction write
succeeds and the vehicle write fails, Complete returns an error while the
stored transaction is already completed and the vehicle is untouched —
the all-or-nothing property does not hold.  When both writes succeed, both
halves are applied (the success half of the claim). -/
theorem c1_complete_not_atomic_on_vehicle_write_failure :
    ((CompleteTransaction db0 10 { transactionReference := "TXN1", notes := "" } 1 7
        true false).1 = .error "vehicle write failed") ∧
    (((CompleteTransaction db0 10 { transactionReference := "TXN1", notes := "" } 1 7
        true false).2.transactions 10).map Transaction.status =
      some TransactionStatusCompleted) ∧
    ((CompleteTransaction db0 10 { transactionReference := "TXN1", notes := "" } 1 7
        true false).2.vehicles 5 = some v5) ∧
    (∃ txn2, (CompleteTransaction db0 10 { transactionReference := "TXN1", notes := "" } 1 7
        true true).1 = .ok txn2) ∧
    (((CompleteTransaction db0 10 { transactionReference := "TXN1", notes := "" } 1 7
        true true).2.transactions 10).map Transaction.status =
      some TransactionStatusCompleted) ∧
    ((CompleteTransaction db0 10 { transactionReference := "TXN1", notes := "" } 1 7
        true true).2.vehicles 5 =
      some { ownerId := 2, status := VehicleStatusSold, updatedAt := 7 }) :=
  ⟨rfl, rfl, rfl, ⟨_, rfl⟩, rfl, rfl⟩

/-- Helper: the updateEndpoint never writes the vehicles collection, on any
path. -/
theorem update_vehicles_frame (db : DB) (id : Nat)
    (req : UpdateTransactionRequest) (userID now : Nat) :
    (updateEndpoint db id req userID now).2.vehicles = db.vehicles := by
  unfold updateEndpoint UpdateTransaction
  cases req.Validate with
  | some e => rfl
  | none =>
    cases db.transactions id with
    | none => rfl
    | some t =>
      dsimp only
      split_ifs <;> rfl

/-- Helper: a passing update validation means the status field is empty or
one of the four declared statuses. -/
theorem update_validate_none_status {req : UpdateTransactionRequest}
    (hv : req.Validate = none) (hs : req.status ≠ "") :
    IsValidTransactionStatus req.status = true := by
  unfold UpdateTransactionRequest.Validate at hv
  split_ifs at hv with hcond
  rcases not_and_or.mp hcond with hc | hc
  · exact absurd hs (by simpa using hc)
  · simpa using hc

/-- C4 (amended order): the Create pipeline checks, in order: request
validation including the payment-detail rules (bad request), vehicle
existence (mapped to 403 by the handler), ownership (403), availability
(400), self-dealing (400); the first violated check determines the
response, and only when all pass is the pending transaction stored with a
201. -/
theorem c4_create_pipeline_order (db : DB) (req : CreateTransactionRequest)
    (sellerID newId now : Nat) :
    createEndpoint db req sellerID newId now =
      match req.Validate with
      | some e => (.failure 400 e, db)
      | none =>
        match db.vehicles req.vehicleId with
        | none => (.failure 403 "vehicle not found", db)
        | some vehicle =>
          if vehicle.ownerId ≠ sellerID then
            (.failure 403 "you are not the owner of this vehicle", db)
          else if vehicle.status ≠ VehicleStatusActive then
            (.failure 400 "vehicle is not available for sale", db)
          else if req.buyerId = sellerID then
            (.failure 400 "cannot create transaction with yourself", db)
          else
            (.success 201 (builtTransaction req sellerID newId now),
              db.setTxn newId (builtTransaction req sellerID newId now)) := by
  unfold createEndpoint CreateTransaction
  cases req.Validate with
  | some e => rfl
  | none =>
    cases db.vehicles req.vehicleId with
    | none => rfl
    | some vehicle =>
      dsimp only
      split_ifs <;> rfl

/-- Counterexample to C4 as stated: on a request whose vehicle is absent,
the pipeline does not answer NotFound — with invalid financing details it
answers 400 from the payment-detail validation (which runs before the
vehicle-exists check), and with valid details it answers 403 (the handler
maps "vehicle not found" to Forbidden), never 404. -/
theorem c4_counterexample :
    (db0.vehicles 99 = none) ∧
    ((createEndpoint db0 reqFinBad 1 50 0).1 =
      .failure 400 "downPayment is required for financing") ∧
    ((createEndpoint db0 reqCashV99 1 50 0).1 =
      .failure 403 "vehicle not found") ∧
    ((403 : Nat) ≠ 404) := by
  refine ⟨rfl, ?_, ?_, by decide⟩ <;> rfl

/-- C10: the Update operation never reads or writes the vehicle entity —
the vehicles collection is unchanged on every path; its request validation
only restricts a non-empty status to the four declared constants; and a
seller or buyer can set the status of an existing transaction directly to
completed by Update, after which the stored transaction is completed while
the vehicle store is untouched. -/
theorem c10_update_never_touches_vehicle :
    (∀ db id req userID now,
      (updateEndpoint db id req userID now).2.vehicles = db.vehicles) ∧
    (∀ req : UpdateTransactionRequest,
      req.Validate = none ↔
        (req.status = "" ∨ IsValidTransactionStatus req.status = true)) ∧
    (∀ db id (req : UpdateTransactionRequest) userID now txn,
      db.transactions id = some txn →
      (userID = txn.sellerId ∨ userID = txn.buyerId) →
      req.status = TransactionStatusCompleted →
      ∃ txn2, (updateEndpoint db id req userID now).1 = .success 200 txn2 ∧
        txn2.status = TransactionStatusCompleted ∧
        (updateEndpoint db id req userID now).2.vehicles = db.vehicles) := by
  refine ⟨update_vehicles_frame, ?_, ?_⟩
  · intro req
    unfold UpdateTransactionRequest.Validate
    split_ifs with hcond
    · have hno : ¬ (req.status = "" ∨ IsValidTransactionStatus req.status = true) := by
        rintro (hh | hh)
        · exact hcond.1 hh
        · rw [hcond.2] at hh
          exact absurd hh (by decide)
      simp [hno]
    · have hyes : req.status = "" ∨ IsValidTransactionStatus req.status = true := by
        rcases not_and_or.mp hcond with hc | hc
        · exact Or.inl (by simpa using hc)
        · exact Or.inr (by simpa using hc)
      simp [hyes]
  · intro db id req userID now txn h1 h2 h3
    have hsne : req.status ≠ "" := by rw [h3]; decide
    have hv : req.Validate = none := by
      unfold UpdateTransactionRequest.Validate
      have hnc : ¬ (req.status ≠ "" ∧ IsValidTransactionStatus req.status = false) := by
        rw [h3]; decide
      rw [if_neg hnc]
    unfold updateEndpoint UpdateTransaction
    rw [hv, h1]
    dsimp only
    have hauth : ¬ (txn.sellerId ≠ userID ∧ txn.buyerId ≠ userID) := by
      rintro ⟨ha, hb⟩
      rcases h2 with h | h
      · exact ha h.symm
      · exact hb h.symm
    rw [if_neg hauth]
    dsimp only
    refine ⟨_, rfl, ?_, rfl⟩
    dsimp only
    rw [if_pos hsne]
    exact h3

/-- Witness for C10: updating the pending fixture transaction with status
completed, as the seller, stores a completed transaction and leaves the
vehicle store unchanged. -/
theorem c10_update_never_touches_vehicle_witness :
    ∃ txn2,
      (updateEndpoint db0 10
          { status := TransactionStatusCompleted, paymentDetails := none, notes := "" }
          1 6).1 = .success 200 txn2 ∧
      txn2.status = TransactionStatusCompleted ∧
      (updateEndpoint db0 10
          { status := TransactionStatusCompleted, paymentDetails := none, notes := "" }
          1 6).2.vehicles = db0.vehicles :=
  c10_update_never_touches_vehicle.2.2 db0 10
    { status := TransactionStatusCompleted, paymentDetails := none, notes := "" }
    1 6 t10 rfl (Or.inl rfl) rfl


/-- Helper: the transaction built by Create always starts pending (also in
the financing branch, which only rewrites payment details). -/
theorem builtTransaction_status (req : CreateTransactionRequest)
    (s nid now : Nat) :
    (builtTransaction req s nid now).status = TransactionStatusPending := by
  unfold builtTransaction
  dsimp only
  split_ifs
  · exact (calculateFinancingDetails_status _).trans rfl
  · rfl

/-- Helper: any property of the stored statuses that holds for "pending",
"completed" and "cancelled" is preserved by every endpoint call, provided
it holds for the status an Update request stores (which, when the request
validates and the status field is non-empty, is the status field itself). -/
theorem applyOp_status_preserved (P : String → Prop)
    (hpend : P TransactionStatusPending)
    (hcomp : P TransactionStatusCompleted)
    (hcanc : P TransactionStatusCancelled)
    (db : DB) (op : Op)
    (h : ∀ i txn, db.transactions i = some txn → P txn.status)
    (hupd : ∀ id req userID now, op = Op.updateOp id req userID now →
      req.Validate = none → req.status ≠ "" → P req.status) :
    ∀ i txn, (applyOp db op).transactions i = some txn → P txn.status := by
  cases op with
  | createOp req s nid now =>
    intro i txn hi
    unfold applyOp createEndpoint CreateTransaction at hi
    dsimp only at hi
    cases hv : req.Validate with
    | some e => rw [hv] at hi; exact h i txn hi
    | none =>
      rw [hv] at hi
      cases hveh : db.vehicles req.vehicleId with
      | none => rw [hveh] at hi; exact h i txn hi
      | some vehicle =>
        rw [hveh] at hi
        dsimp only at hi
        by_cases h1 : vehicle.ownerId ≠ s
        · rw [if_pos h1] at hi
          exact h i txn hi
        · rw [if_neg h1] at hi
          by_cases h2 : vehicle.status ≠ VehicleStatusActive
          · rw [if_pos h2] at hi
            exact h i txn hi
          · rw [if_neg h2] at hi
            by_cases h3 : req.buyerId = s
            · rw [if_pos h3] at hi
              exact h i txn hi
            · rw [if_neg h3] at hi
              rcases setTxn_transactions_eq_some hi with rfl | hm
              · rw [builtTransaction_status]
                exact hpend
              · exact h i txn hm
  | updateOp id req userID now =>
    intro i txn hi
    unfold applyOp updateEndpoint UpdateTransaction at hi
    dsimp only at hi
    cases hv : req.Validate with
    | some e => rw [hv] at hi; exact h i txn hi
    | none =>
      rw [hv] at hi
      cases hdb : db.transactions id with
      | none => rw [hdb] at hi; exact h i txn hi
      | some t =>
        rw [hdb] at hi
        dsimp only at hi
        by_cases hauth : t.sellerId ≠ userID ∧ t.buyerId ≠ userID
        · rw [if_pos hauth] at hi
          exact h i txn hi
        · rw [if_neg hauth] at hi
          rcases setTxn_transactions_eq_some hi with rfl | hm
          · dsimp only
            by_cases hs : req.status ≠ ""
            · rw [if_pos hs]
              exact hupd id req userID now rfl hv hs
            · rw [if_neg hs]
              exact h id t hdb
          · exact h i txn hm
  | completeOp id req userID now b1 b2 =>
    intro i txn hi
    unfold applyOp completeEndpoint CompleteTransaction at hi
    dsimp only at hi
    cases hv : req.Validate with
    | some e => rw [hv] at hi; exact h i txn hi
    | none =>
      rw [hv] at hi
      cases hdb : db.transactions id with
      | none => rw [hdb] at hi; exact h i txn hi
      | some t =>
        rw [hdb] at hi
        dsimp only at hi
        by_cases h1 : t.sellerId ≠ userID
        · rw [if_pos h1] at hi
          exact h i txn hi
        · rw [if_neg h1] at hi
          by_cases h2 : t.status ≠ TransactionStatusPending
          · rw [if_pos h2] at hi
            exact h i txn hi
          · rw [if_neg h2] at hi
            by_cases h3 : b1 = false
            · rw [if_pos h3] at hi
              exact h i txn hi
            · rw [if_neg h3] at hi
              by_cases h4 : b2 = false
              · rw [if_pos h4] at hi
                rcases setTxn_transactions_eq_some hi with rfl | hm
                · exact hcomp
                · exact h i txn hm
              · rw [if_neg h4] at hi
                rcases setTxn_transactions_eq_some hi with rfl | hm
                · exact hcomp
                · exact h i txn hm
  | cancelOp id notes userID now =>
    intro i txn hi
    unfold applyOp cancelEndpoint CancelTransaction at hi
    dsimp only at hi
    cases hdb : db.transactions id with
    | none => rw [hdb] at hi; exact h i txn hi
    | some t =>
      rw [hdb] at hi
      dsimp only at hi
      by_cases hauth : t.sellerId ≠ userID ∧ t.buyerId ≠ userID
      · rw [if_pos hauth] at hi
        exact h i txn hi
      · rw [if_neg hauth] at hi
        by_cases hp : t.status ≠ TransactionStatusPending
        · rw [if_pos hp] at hi
          exact h i txn hi
        · rw [if_neg hp] at hi
          rcases setTxn_transactions_eq_some hi with rfl | hm
          · exact hcanc
          · exact h i txn hm

/-- Helper: stored statuses stay inside the declared four-element set under
any sequence of endpoint calls. -/
theorem statusOk_applyOps (ops : List Op) :
    ∀ db : DB, statusOk db → statusOk (applyOps db ops) := by
  induction ops with
  | nil => intro db h; exact h
  | cons op ops ih =>
    intro db h
    exact ih (applyOp db op)
      (applyOp_status_preserved (fun s => IsValidTransactionStatus s = true)
        (by decide) (by decide) (by decide) db op h
        (fun id req userID now he hv hs => update_validate_none_status hv hs))

/-- C2 (amended): every stored transaction's status stays inside the four
declared constants (pending, completed, cancelled, failed — Update may
store "failed"); and once a transaction is completed or cancelled, any
further Complete or Cancel leaves the whole store unchanged, the seller's
Complete and either party's Cancel return the invalid-state error, and the
handlers map those errors to 400. -/
theorem c2_statuses_and_terminal_immutability :
    (∀ db ops, statusOk db → statusOk (applyOps db ops)) ∧
    (∀ db id txn (req : CompleteTransactionRequest) (notes : String)
        (userID now : Nat) (b1 b2 : Bool),
      db.transactions id = some txn →
      (txn.status = TransactionStatusCompleted ∨
       txn.status = TransactionStatusCancelled) →
      ((CompleteTransaction db id req userID now b1 b2).2 = db ∧
       (CancelTransaction db id notes userID now).2 = db ∧
       (txn.sellerId = userID →
         CompleteTransaction db id req userID now b1 b2 =
           (.error "transaction is not pending", db)) ∧
       ((txn.sellerId = userID ∨ txn.buyerId = userID) →
         CancelTransaction db id notes userID now =
           (.error "only pending transactions can be cancelled", db)))) ∧
    completeTransactionHttpStatus "transaction is not pending" = 400 ∧
    cancelTransactionHttpStatus "only pending transactions can be cancelled" = 400 := by
  refine ⟨fun db ops h => statusOk_applyOps ops db h, ?_, by decide, by decide⟩
  intro db id txn req notes userID now b1 b2 h1 hcc
  have hnp : txn.status ≠ TransactionStatusPending := by
    rcases hcc with hc | hc <;> rw [hc] <;> decide
  refine ⟨?_, ?_, ?_, ?_⟩
  · unfold CompleteTransaction
    rw [h1]
    dsimp only
    by_cases hs : txn.sellerId ≠ userID
    · rw [if_pos hs]
    · rw [if_neg hs, if_pos hnp]
  · unfold CancelTransaction
    rw [h1]
    dsimp only
    by_cases ha : txn.sellerId ≠ userID ∧ txn.buyerId ≠ userID
    · rw [if_pos ha]
    · rw [if_neg ha, if_pos hnp]
  · intro hsell
    unfold CompleteTransaction
    rw [h1]
    dsimp only
    rw [if_neg (show ¬ (txn.sellerId ≠ userID) by simp [hsell]), if_pos hnp]
  · intro hpart
    unfold CancelTransaction
    rw [h1]
    dsimp only
    have ha : ¬ (txn.sellerId ≠ userID ∧ txn.buyerId ≠ userID) := by
      rintro ⟨hx, hy⟩
      rcases hpart with hp | hp
      · exact hx hp
      · exact hy hp
    rw [if_neg ha, if_pos hnp]

/-- Counterexample to C2 as stated: Update (whose request validation allows
the status "failed") stores a transaction with status "failed", outside the
claimed three-element set; moreover a Complete on a completed transaction
by a non-party returns the forbidden error (403), not InvalidState. -/
theorem c2_counterexample :
    (((updateEndpoint db0 10
        { status := TransactionStatusFailed, paymentDetails := none, notes := "" }
        1 3).2.transactions 10).map Transaction.status =
      some TransactionStatusFailed) ∧
    (TransactionStatusFailed ≠ TransactionStatusPending ∧
     TransactionStatusFailed ≠ TransactionStatusCompleted ∧
     TransactionStatusFailed ≠ TransactionStatusCancelled) ∧
    ((completeEndpoint db1c 11 { transactionReference := "T", notes := "" }
        99 3 true true).1 =
      .failure 403 "only the seller can complete this transaction") := by
  refine ⟨?_, by decide, ?_⟩ <;> rfl

/-- Witness for C2 at the fixture store with a completed transaction: the
seller's Complete and Cancel both return the invalid-state error with the
store unchanged, and the chain starting from valid statuses keeps them
valid. -/
theorem c2_statuses_and_terminal_immutability_witness :
    (CompleteTransaction db1c 11 { transactionReference := "T", notes := "" } 1 3 true true =
      (.error "transaction is not pending", db1c)) ∧
    (CancelTransaction db1c 11 "" 1 3 =
      (.error "only pending transactions can be cancelled", db1c)) := by
  have h := c2_statuses_and_terminal_immutability.2.1 db1c 11 t11
    { transactionReference := "T", notes := "" } "" 1 3 true true rfl (Or.inl rfl)
  exact ⟨h.2.2.1 rfl, h.2.2.2 (Or.inl rfl)⟩

/-- C8 (amended): the status "failed" is unreachable through Create,
Complete and Cancel; only an Update whose request status field is literally
"failed" can store it.  Formally: from a store with no failed transaction,
any sequence of endpoint calls containing no such Update leaves the store
with no failed transaction. -/
theorem c8_failed_unreachable_without_explicit_update (ops : List Op) :
    ∀ db : DB, noFailed db → (∀ op ∈ ops, op.avoidsFailed) →
      noFailed (applyOps db ops) := by
  induction ops with
  | nil => intro db h _; exact h
  | cons op ops ih =>
    intro db h hops
    refine ih (applyOp db op) ?_ (fun o ho => hops o (List.mem_cons_of_mem op ho))
    have hop := hops op (List.mem_cons_self op ops)
    exact applyOp_status_preserved (fun s => s ≠ TransactionStatusFailed)
      (by decide) (by decide) (by decide) db op h
      (fun id req userID now he _ _ => by rw [he] at hop; exact hop)

/-- Counterexample to C8 as stated: the one-call sequence that Updates the
pending fixture transaction with status "failed" leaves it stored with
status "failed". -/
theorem c8_counterexample :
    ((applyOps db0 [Op.updateOp 10
        { status := TransactionStatusFailed, paymentDetails := none, notes := "" }
        1 3]).transactions 10).map Transaction.status =
      some TransactionStatusFailed := rfl

/-- Witness for C8: after a cancel followed by a complete attempt on the
fixture store, no stored transaction is failed. -/
theorem c8_failed_unreachable_without_explicit_update_witness :
    noFailed (applyOps db0 [Op.cancelOp 10 "" 1 3,
      Op.completeOp 10 { transactionReference := "T", notes := "" } 1 4 true true]) := by
  refine c8_failed_unreachable_without_explicit_update _ db0 ?_ ?_
  · intro i txn hi
    unfold db0 at hi
    dsimp only at hi
    split_ifs at hi
    rw [← Option.some.inj hi]
    decide
  · intro op ho
    rcases List.mem_cons.mp ho with rfl | ho
    · trivial
    · rcases List.mem_cons.mp ho with rfl | ho
      · trivial
      · exact absurd ho (by simp)
